import Mathlib

/-!
Verification of the `ziri` Python bootstrap shim
(`packages/ziri-py/ziri/__main__.py`).

The shim's `run()` is embedded as a pure function over an `Env` that
records the outcome of the two executable-path lookups
(`shutil.which "ziri"`, `shutil.which "npx"`), the process argument
vector `sys.argv`, and an oracle for `subprocess.call` (which either
returns the child's exit status or raises an OS error such as
`PermissionError`).  `run` produces a `RunResult`: the ordered list of
path lookups performed, the command lines handed to `subprocess.call`,
the lines the shim itself printed to standard output, and the final
`Outcome` (an explicit `sys.exit code`, a propagated exception, or a
normal return — the last never occurs).
-/

/-- Final control outcome of `run()`:
`exited code` models `sys.exit(code)`;
`raised e` models an uncaught exception propagating out of `run()`
(the Python interpreter then terminates with a nonzero status);
`returned` models `run()` falling off the end of its body and
returning normally (which never happens in the source). -/
inductive Outcome where
  | exited (code : Int)
  | raised (err : String)
  | returned
  deriving DecidableEq, Repr

/-- Exit status of the whole shim process as the operating system sees
it: `sys.exit(code)` yields `code`, an uncaught exception makes the
interpreter exit with status 1, and a normal return from `__main__`
would exit with status 0. -/
def osExitCode : Outcome → Int
  | Outcome.exited code => code
  | Outcome.raised _ => 1
  | Outcome.returned => 0

/-- Environment of one invocation of the shim:
the full `sys.argv` (head is the shim's own program name),
the results of `shutil.which "ziri"` and `shutil.which "npx"`,
and the behaviour of `subprocess.call` on any command line
(`Except.ok code` - the child ran and exited with `code`;
`Except.error e` - spawning raised an OS error `e`). -/
structure Env where
  sysArgv : List String
  whichZiri : Option String
  whichNpx : Option String
  callResult : List String → Except String Int

/-- Observable trace of one invocation of `run()`:
the executable names looked up on the search path, in order;
the command lines passed to `subprocess.call`, in order;
the lines the shim itself printed to standard output;
and the final control outcome. -/
structure RunResult where
  lookups : List String
  calls : List (List String)
  stdout : List String
  outcome : Outcome
  deriving DecidableEq, Repr

/-- The fixed guidance message printed when neither delegate is found
(line 9 of `__main__.py`). -/
def ziriMessage : String :=
  "Ziri requires Node.js >= 18. Please install Node and npm, then `npm -g install ziri`."

/-- Lift the result of `subprocess.call` into the shim's final outcome:
`sys.exit` on the returned status, or propagation of the raised error. -/
def spawnOutcome : Except String Int → Outcome
  | Except.ok code => Outcome.exited code
  | Except.error e => Outcome.raised e

/-- Embedding of `run()` from `__main__.py`:
```
def run():
    exe = shutil.which("ziri")
    if exe:
        sys.exit(subprocess.call([exe] + sys.argv[1:]))
    npx = shutil.which("npx")
    if npx:
        sys.exit(subprocess.call([npx, "ziri"] + sys.argv[1:]))
    print("Ziri requires Node.js >= 18. ...")
    sys.exit(1)
``` -/
def run (env : Env) : RunResult :=
  match env.whichZiri with
  | some exe =>
      { lookups := ["ziri"]
        calls := [exe :: env.sysArgv.drop 1]
        stdout := []
        outcome := spawnOutcome (env.callResult (exe :: env.sysArgv.drop 1)) }
  | none =>
      match env.whichNpx with
      | some npx =>
          { lookups := ["ziri", "npx"]
            calls := [npx :: "ziri" :: env.sysArgv.drop 1]
            stdout := []
            outcome := spawnOutcome (env.callResult (npx :: "ziri" :: env.sysArgv.drop 1)) }
      | none =>
          { lookups := ["ziri", "npx"]
            calls := []
            stdout := [ziriMessage]
            outcome := Outcome.exited 1 }

/-- Concrete environment: `ziri` resolvable, child exits with 127. -/
def envC1 : Env :=
  { sysArgv := ["ziri-shim", "--help"]
    whichZiri := some "/usr/bin/ziri"
    whichNpx := none
    callResult := fun _ => Except.ok 127 }

/-- C1: if `ziri` is resolvable, `run()` spawns it with exactly the
argument vector `V = sys.argv[1:]` after its own program token and
terminates the shim with exactly the child's exit status, for every
child exit status. -/
theorem run_primary_delegation (env : Env) (exe : String) (code : Int)
    (hz : env.whichZiri = some exe)
    (hc : env.callResult (exe :: env.sysArgv.drop 1) = Except.ok code) :
    (run env).calls = [exe :: env.sysArgv.drop 1] ∧
      (run env).outcome = Outcome.exited code ∧
      osExitCode (run env).outcome = code := by
  have hc' : env.callResult (exe :: env.sysArgv.tail) = Except.ok code := by
    simpa [List.drop_one] using hc
  simp [run, hz, hc', spawnOutcome, osExitCode]

/-- Witness for C1 at a concrete environment with child exit status 127. -/
theorem run_primary_delegation_witness :
    (run envC1).calls = [["/usr/bin/ziri", "--help"]] ∧
      (run envC1).outcome = Outcome.exited 127 ∧
      osExitCode (run envC1).outcome = 127 :=
  run_primary_delegation envC1 "/usr/bin/ziri" 127 rfl rfl

/-- Concrete environment: only `npx` resolvable, child exits with 2. -/
def envC2 : Env :=
  { sysArgv := ["ziri-shim", "index", "."]
    whichZiri := none
    whichNpx := some "/usr/bin/npx"
    callResult := fun _ => Except.ok 2 }

/-- C2: if `ziri` is not resolvable but `npx` is, `run()` spawns `npx`
with the literal token "ziri" followed by `V = sys.argv[1:]` and
terminates the shim with exactly that child's exit status. -/
theorem run_fallback_delegation (env : Env) (npx : String) (code : Int)
    (hz : env.whichZiri = none)
    (hn : env.whichNpx = some npx)
    (hc : env.callResult (npx :: "ziri" :: env.sysArgv.drop 1) = Except.ok code) :
    (run env).calls = [npx :: "ziri" :: env.sysArgv.drop 1] ∧
      (run env).outcome = Outcome.exited code ∧
      osExitCode (run env).outcome = code := by
  have hc' : env.callResult (npx :: "ziri" :: env.sysArgv.tail) = Except.ok code := by
    simpa [List.drop_one] using hc
  simp [run, hz, hn, hc', spawnOutcome, osExitCode]

/-- Witness for C2 at a concrete environment with child exit status 2. -/
theorem run_fallback_delegation_witness :
    (run envC2).calls = [["/usr/bin/npx", "ziri", "index", "."]] ∧
      (run envC2).outcome = Outcome.exited 2 ∧
      osExitCode (run envC2).outcome = 2 :=
  run_fallback_delegation envC2 "/usr/bin/npx" 2 rfl rfl rfl

/-- Concrete environment: neither delegate resolvable, nonempty arguments. -/
def envC3 : Env :=
  { sysArgv := ["ziri-shim", "index", "--verbose"]
    whichZiri := none
    whichNpx := none
    callResult := fun _ => Except.ok 0 }

/-- C3: if neither `ziri` nor `npx` is resolvable, `run()` prints the
fixed guidance message and exits with status 1; the whole result is a
constant that does not depend on the argument vector. -/
theorem run_no_delegate (env : Env)
    (hz : env.whichZiri = none) (hn : env.whichNpx = none) :
    run env =
      { lookups := ["ziri", "npx"]
        calls := []
        stdout := [ziriMessage]
        outcome := Outcome.exited 1 } := by
  simp [run, hz, hn]

/-- Witness for C3 at a concrete environment with a nonempty argument
vector. -/
theorem run_no_delegate_witness :
    run envC3 =
      { lookups := ["ziri", "npx"]
        calls := []
        stdout := [ziriMessage]
        outcome := Outcome.exited 1 } :=
  run_no_delegate envC3 rfl rfl

/-- Concrete environment for C4, primary path. -/
def envC4a : Env :=
  { sysArgv := ["ziri-shim", "a b", "--x=1"]
    whichZiri := some "/opt/ziri"
    whichNpx := none
    callResult := fun _ => Except.ok 0 }

/-- Concrete environment for C4, fallback path. -/
def envC4b : Env :=
  { sysArgv := ["ziri-shim", "a b", "--x=1"]
    whichZiri := none
    whichNpx := some "/opt/npx"
    callResult := fun _ => Except.ok 0 }

/-- C4: in both delegation paths the command line handed to
`subprocess.call` is the delegate-specific prefix (`[exe]`, resp.
`[npx, "ziri"]`) followed by exactly `V = sys.argv[1:]`: same length,
same order, every string unchanged. -/
theorem run_argument_forwarding (env : Env) :
    (∀ exe, env.whichZiri = some exe →
      (run env).calls = [exe :: env.sysArgv.drop 1]) ∧
    (env.whichZiri = none → ∀ npx, env.whichNpx = some npx →
      (run env).calls = [npx :: "ziri" :: env.sysArgv.drop 1]) := by
  constructor
  · intro exe hz
    simp [run, hz, List.drop_one]
  · intro hz npx hn
    simp [run, hz, hn, List.drop_one]

/-- Witness for C4 at concrete environments whose arguments contain a
space and a special character, on both paths. -/
theorem run_argument_forwarding_witness :
    (run envC4a).calls = [["/opt/ziri", "a b", "--x=1"]] ∧
      (run envC4b).calls = [["/opt/npx", "ziri", "a b", "--x=1"]] :=
  ⟨(run_argument_forwarding envC4a).1 "/opt/ziri" rfl,
   (run_argument_forwarding envC4b).2 rfl "/opt/npx" rfl⟩

/-- Concrete environment for C5, primary path. -/
def envC5a : Env :=
  { sysArgv := ["ziri-shim"]
    whichZiri := some "/opt/ziri"
    whichNpx := some "/opt/npx"
    callResult := fun _ => Except.ok 0 }

/-- Concrete environment for C5, fallback path. -/
def envC5b : Env :=
  { sysArgv := ["ziri-shim"]
    whichZiri := none
    whichNpx := some "/opt/npx"
    callResult := fun _ => Except.ok 0 }

/-- C5: the `npx` lookup happens only after the `ziri` lookup missed.
When `ziri` resolves, the lookup trace is exactly `["ziri"]` (so `npx`
is never looked up) and the only spawned command is the `ziri`
delegate; when `ziri` does not resolve, the lookup trace is
`["ziri", "npx"]`, in that order. -/
theorem run_lookup_order (env : Env) :
    (∀ exe, env.whichZiri = some exe →
      (run env).lookups = ["ziri"] ∧
        (run env).calls = [exe :: env.sysArgv.drop 1]) ∧
    (env.whichZiri = none → (run env).lookups = ["ziri", "npx"]) := by
  constructor
  · intro exe hz
    simp [run, hz, List.drop_one]
  · intro hz
    cases hn : env.whichNpx <;> simp [run, hz, hn]

/-- Witness for C5: with `ziri` resolvable (and `npx` also present on
the path) only the `ziri` lookup happens; with `ziri` missing both
lookups happen, in order. -/
theorem run_lookup_order_witness :
    ((run envC5a).lookups = ["ziri"] ∧
      (run envC5a).calls = [["/opt/ziri"]]) ∧
      (run envC5b).lookups = ["ziri", "npx"] :=
  ⟨(run_lookup_order envC5a).1 "/opt/ziri" rfl,
   (run_lookup_order envC5b).2 rfl⟩

/-- Concrete environment for C6: `ziri` located but spawning it raises
a permission error. -/
def envC6 : Env :=
  { sysArgv := ["ziri-shim", "index"]
    whichZiri := some "/opt/ziri"
    whichNpx := none
    callResult := fun _ => Except.error "PermissionError" }

/-- C6: if a delegate was located and handed to `subprocess.call` but
spawning it raises an OS error, `run()` does not catch it: the error
propagates out of `run()` and the shim process terminates with a
nonzero exit status, never with a success status. -/
theorem run_spawn_error_propagates (env : Env) (cmd : List String) (e : String)
    (hcalls : (run env).calls = [cmd])
    (herr : env.callResult cmd = Except.error e) :
    (run env).outcome = Outcome.raised e ∧
      osExitCode (run env).outcome ≠ 0 := by
  rcases hz : env.whichZiri with _ | exe
  · rcases hn : env.whichNpx with _ | npx
    · simp [run, hz, hn] at hcalls
    · simp [run, hz, hn] at hcalls ⊢
      rw [hcalls, herr]
      simp [spawnOutcome, osExitCode]
  · simp [run, hz] at hcalls ⊢
    rw [hcalls, herr]
    simp [spawnOutcome, osExitCode]

/-- Witness for C6 at a concrete environment where spawning the located
`ziri` raises a permission error. -/
theorem run_spawn_error_propagates_witness :
    (run envC6).outcome = Outcome.raised "PermissionError" ∧
      osExitCode (run envC6).outcome ≠ 0 :=
  run_spawn_error_propagates envC6 ["/opt/ziri", "index"] "PermissionError" rfl rfl

/-- Environment exhibiting two path lookups: `ziri` absent, `npx`
present. -/
def envC7 : Env :=
  { sysArgv := ["ziri-shim"]
    whichZiri := none
    whichNpx := some "/usr/bin/npx"
    callResult := fun _ => Except.ok 0 }

/-- C7 counterexample: the claim "no execution performs more than one
executable-search lookup" is false — when `ziri` is not resolvable the
shim performs two lookups (`ziri`, then `npx`). -/
theorem run_single_lookup_counterexample :
    ¬ ((run envC7).lookups.length ≤ 1 ∧ (run envC7).calls.length ≤ 1) := by
  intro h
  have h1 : (run envC7).lookups.length = 2 := rfl
  omega

/-- C7 (amended): every invocation performs at most two path lookups
followed by at most one blocking child-process execution; no execution
spawns more than one child process. -/
theorem run_at_most_two_lookups_one_call (env : Env) :
    (run env).lookups.length ≤ 2 ∧ (run env).calls.length ≤ 1 := by
  rcases hz : env.whichZiri with _ | exe
  · rcases hn : env.whichNpx with _ | npx <;> simp [run, hz, hn]
  · simp [run, hz]

/-- C8: the shim's own standard output is exactly the one fixed
guidance line in the no-delegate case and empty in the primary and
fallback delegation paths. -/
theorem run_stdout_characterisation (env : Env) :
    (run env).stdout =
      match env.whichZiri, env.whichNpx with
      | none, none => [ziriMessage]
      | _, _ => [] := by
  rcases hz : env.whichZiri with _ | exe
  · rcases hn : env.whichNpx with _ | npx <;> simp [run, hz, hn]
  · simp [run, hz]

/-- Concrete environment for C9. -/
def envC9 : Env :=
  { sysArgv := ["ziri-shim", "chat"]
    whichZiri := none
    whichNpx := some "/usr/bin/npx"
    callResult := fun _ => Except.ok 0 }

/-- C9: `run()` never returns normally to its caller; and whenever
every command it hands to `subprocess.call` returns an exit status
(no spawn error), it terminates by an explicit `sys.exit` carrying
some exit status. -/
theorem run_always_exits (env : Env) :
    (run env).outcome ≠ Outcome.returned ∧
      ((∀ cmd ∈ (run env).calls, ∃ c, env.callResult cmd = Except.ok c) →
        ∃ code, (run env).outcome = Outcome.exited code) := by
  rcases hz : env.whichZiri with _ | exe
  · rcases hn : env.whichNpx with _ | npx
    · simp [run, hz, hn]
    · constructor
      · simp only [run, hz, hn]
        cases h : env.callResult (npx :: "ziri" :: env.sysArgv.tail) <;>
          simp [spawnOutcome, h]
      · intro hok
        obtain ⟨c, hc⟩ := hok (npx :: "ziri" :: env.sysArgv.tail) (by simp [run, hz, hn])
        exact ⟨c, by simp [run, hz, hn, hc, spawnOutcome]⟩
  · constructor
    · simp only [run, hz]
      cases h : env.callResult (exe :: env.sysArgv.tail) <;>
        simp [spawnOutcome, h]
    · intro hok
      obtain ⟨c, hc⟩ := hok (exe :: env.sysArgv.tail) (by simp [run, hz])
      exact ⟨c, by simp [run, hz, hc, spawnOutcome]⟩

/-- Witness for C9 at a concrete environment whose spawned child
returns normally. -/
theorem run_always_exits_witness :
    (run envC9).outcome ≠ Outcome.returned ∧
      ∃ code, (run envC9).outcome = Outcome.exited code :=
  ⟨(run_always_exits envC9).1,
   (run_always_exits envC9).2 (fun _ _ => ⟨0, rfl⟩)⟩

/-- First concrete environment for C10. -/
def envC10a : Env :=
  { sysArgv := ["ziri-shim", "query"]
    whichZiri := some "/opt/ziri"
    whichNpx := none
    callResult := fun _ => Except.ok 3 }

/-- Second concrete environment for C10: same lookups and argument
vector, and the same child exit status on the command actually spawned,
but a different oracle elsewhere. -/
def envC10b : Env :=
  { sysArgv := ["ziri-shim", "query"]
    whichZiri := some "/opt/ziri"
    whichNpx := none
    callResult := fun cmd => if cmd.length = 2 then Except.ok 3 else Except.ok 99 }

/-- C10: `run()` is deterministic — two invocations with the same
argument vector, the same results of the two path lookups, and the same
child exit status on the spawned command produce identical traces, in
particular the same shim exit outcome and the same standard output. -/
theorem run_deterministic (a b : Env)
    (hargv : a.sysArgv = b.sysArgv)
    (hz : a.whichZiri = b.whichZiri)
    (hn : a.whichNpx = b.whichNpx)
    (hc : ∀ cmd ∈ (run a).calls, a.callResult cmd = b.callResult cmd) :
    run a = run b := by
  rcases hza : a.whichZiri with _ | exe
  · rcases hna : a.whichNpx with _ | npx
    · simp [run, hza, hna, ← hz, ← hn]
    · have hcall :
          a.callResult (npx :: "ziri" :: a.sysArgv.tail) =
            b.callResult (npx :: "ziri" :: a.sysArgv.tail) :=
        hc _ (by simp [run, hza, hna])
      simp [run, hza, hna, ← hz, ← hn, ← hargv, hcall]
  · have hcall :
        a.callResult (exe :: a.sysArgv.tail) =
          b.callResult (exe :: a.sysArgv.tail) :=
      hc _ (by simp [run, hza])
    simp [run, hza, ← hz, ← hargv, hcall]

/-- Witness for C10 at two concrete environments that agree on the
lookups, the argument vector and the spawned command's exit status but
differ elsewhere in the spawn oracle. -/
theorem run_deterministic_witness : run envC10a = run envC10b :=
  run_deterministic envC10a envC10b rfl rfl rfl
    (fun cmd hmem => by
      have hcmd : cmd = ["/opt/ziri", "query"] := by
        simpa [run, envC10a] using hmem
      subst hcmd
      rfl)
